import Mathlib

/-!
Verification of the tplink-omada-api client library against its specification.

The definitions below are a shallow embedding of the Python source:
`definitions.py` (IntEnum views with `_missing_` fallbacks),
`omadaapiconnection.py` (pagination, login version gate, login freshness
check, session ownership), `omadaclient.py` (the legacy client's version
gate), `devices.py` (entity views) and `omadasiteclient.py` (the
read-modify-write reconciliation operations).  Network interactions are
modelled by passing the server's responses explicitly and recording the
sequence of issued requests.
-/

/-! ## Enums from definitions.py

Each Python `IntEnum` in `definitions.py` declares a `_missing_` classmethod,
so `Enum(value)` is total.  Python resolves `Enum(value)` through the
value-to-member map built from the declared members, and falls back to
`_missing_` when the value is not a declared code; `enumFromInt` mirrors
exactly that: a lookup of the declared member carrying the code, with the
designated fallback member otherwise. -/

def enumFromInt {a : Type} (members : List a) (code : a → Int) (fallback : a)
    (i : Int) : a :=
  (members.find? (fun m => code m == i)).getD fallback

theorem enumFromInt_total {a : Type} (members : List a) (code : a → Int)
    (fallback : a) (i : Int) :
    enumFromInt members code fallback i = fallback ∨
      code (enumFromInt members code fallback i) = i := by
  rcases hfind : members.find? (fun m => code m == i) with _ | m
  · left
    simp [enumFromInt, hfind]
  · right
    have h := List.find?_some hfind
    simp only [beq_iff_eq] at h
    simp [enumFromInt, hfind, h]


inductive DeviceStatus
  | UNKNOWN | DISCONNECTED | DISCONNECTED_MIGRATING | PROVISIONING | CONFIGURING | UPGRADING | REBOOTING | CONNECTED | CONNECTED_WIRELESS | CONNECTED_MIGRATING | CONNECTED_WIRELESS_MIGRATING | PENDING | PENDING_WIRELESS | ADOPTING | ADOPTING_WIRELESS | ADOPT_FAILED | ADOPT_FAILED_WIRELESS | MANAGED_EXTERNALLY | MANAGED_EXTERNALLY_WIRELESS | HEARTBEAT_MISSED | HEARTBEAT_MISSED_WIRELESS | HEARTBEAT_MISSED_MIGRATING | HEARTBEAT_MISSED_WIRELESS_MIGRATING | ISOLATED | ISOLATED_MIGRATING
deriving DecidableEq

def DeviceStatus.toInt : DeviceStatus → Int
  | .UNKNOWN => -1
  | .DISCONNECTED => 0
  | .DISCONNECTED_MIGRATING => 1
  | .PROVISIONING => 10
  | .CONFIGURING => 11
  | .UPGRADING => 12
  | .REBOOTING => 13
  | .CONNECTED => 14
  | .CONNECTED_WIRELESS => 15
  | .CONNECTED_MIGRATING => 16
  | .CONNECTED_WIRELESS_MIGRATING => 17
  | .PENDING => 20
  | .PENDING_WIRELESS => 21
  | .ADOPTING => 22
  | .ADOPTING_WIRELESS => 23
  | .ADOPT_FAILED => 24
  | .ADOPT_FAILED_WIRELESS => 25
  | .MANAGED_EXTERNALLY => 26
  | .MANAGED_EXTERNALLY_WIRELESS => 27
  | .HEARTBEAT_MISSED => 30
  | .HEARTBEAT_MISSED_WIRELESS => 31
  | .HEARTBEAT_MISSED_MIGRATING => 32
  | .HEARTBEAT_MISSED_WIRELESS_MIGRATING => 33
  | .ISOLATED => 40
  | .ISOLATED_MIGRATING => 41

def DeviceStatus.members : List DeviceStatus :=
  [.UNKNOWN, .DISCONNECTED, .DISCONNECTED_MIGRATING, .PROVISIONING, .CONFIGURING, .UPGRADING, .REBOOTING, .CONNECTED, .CONNECTED_WIRELESS, .CONNECTED_MIGRATING, .CONNECTED_WIRELESS_MIGRATING, .PENDING, .PENDING_WIRELESS, .ADOPTING, .ADOPTING_WIRELESS, .ADOPT_FAILED, .ADOPT_FAILED_WIRELESS, .MANAGED_EXTERNALLY, .MANAGED_EXTERNALLY_WIRELESS, .HEARTBEAT_MISSED, .HEARTBEAT_MISSED_WIRELESS, .HEARTBEAT_MISSED_MIGRATING, .HEARTBEAT_MISSED_WIRELESS_MIGRATING, .ISOLATED, .ISOLATED_MIGRATING]

def DeviceStatus.fromInt (i : Int) : DeviceStatus :=
  enumFromInt DeviceStatus.members DeviceStatus.toInt .UNKNOWN i

inductive DeviceStatusCategory
  | UNKNOWN | DISCONNECTED | CONNECTED | PENDING | HEARTBEAT_MISSED | ISOLATED
deriving DecidableEq

def DeviceStatusCategory.toInt : DeviceStatusCategory → Int
  | .UNKNOWN => -1
  | .DISCONNECTED => 0
  | .CONNECTED => 1
  | .PENDING => 2
  | .HEARTBEAT_MISSED => 3
  | .ISOLATED => 4

def DeviceStatusCategory.members : List DeviceStatusCategory :=
  [.UNKNOWN, .DISCONNECTED, .CONNECTED, .PENDING, .HEARTBEAT_MISSED, .ISOLATED]

def DeviceStatusCategory.fromInt (i : Int) : DeviceStatusCategory :=
  enumFromInt DeviceStatusCategory.members DeviceStatusCategory.toInt .UNKNOWN i

inductive PortType
  | UNKNOWN | COPPER | COMBO | SFP
deriving DecidableEq

def PortType.toInt : PortType → Int
  | .UNKNOWN => -1
  | .COPPER => 1
  | .COMBO => 2
  | .SFP => 3

def PortType.members : List PortType :=
  [.UNKNOWN, .COPPER, .COMBO, .SFP]

def PortType.fromInt (i : Int) : PortType :=
  enumFromInt PortType.members PortType.toInt .UNKNOWN i

inductive GatewayPortType
  | UNKNOWN | WAN | WAN_LAN | LAN | SFP_WAN
deriving DecidableEq

def GatewayPortType.toInt : GatewayPortType → Int
  | .UNKNOWN => -1
  | .WAN => 0
  | .WAN_LAN => 1
  | .LAN => 2
  | .SFP_WAN => 3

def GatewayPortType.members : List GatewayPortType :=
  [.UNKNOWN, .WAN, .WAN_LAN, .LAN, .SFP_WAN]

def GatewayPortType.fromInt (i : Int) : GatewayPortType :=
  enumFromInt GatewayPortType.members GatewayPortType.toInt .UNKNOWN i

inductive GatewayPortMode
  | DISABLED | WAN | LAN
deriving DecidableEq

def GatewayPortMode.toInt : GatewayPortMode → Int
  | .DISABLED => -1
  | .WAN => 0
  | .LAN => 1

def GatewayPortMode.members : List GatewayPortMode :=
  [.DISABLED, .WAN, .LAN]

def GatewayPortMode.fromInt (i : Int) : GatewayPortMode :=
  enumFromInt GatewayPortMode.members GatewayPortMode.toInt .DISABLED i

inductive LinkStatus
  | UNKNOWN | LINK_DOWN | LINK_UP
deriving DecidableEq

def LinkStatus.toInt : LinkStatus → Int
  | .UNKNOWN => -1
  | .LINK_DOWN => 0
  | .LINK_UP => 1

def LinkStatus.members : List LinkStatus :=
  [.UNKNOWN, .LINK_DOWN, .LINK_UP]

def LinkStatus.fromInt (i : Int) : LinkStatus :=
  enumFromInt LinkStatus.members LinkStatus.toInt .UNKNOWN i

inductive LinkSpeed
  | UNKNOWN | SPEED_AUTO | SPEED_10_MBPS | SPEED_100_MBPS | SPEED_1_GBPS | SPEED_2_5_GBPS | SPEED_10_GBPS
deriving DecidableEq

def LinkSpeed.toInt : LinkSpeed → Int
  | .UNKNOWN => -1
  | .SPEED_AUTO => 0
  | .SPEED_10_MBPS => 1
  | .SPEED_100_MBPS => 2
  | .SPEED_1_GBPS => 3
  | .SPEED_2_5_GBPS => 4
  | .SPEED_10_GBPS => 5

def LinkSpeed.members : List LinkSpeed :=
  [.UNKNOWN, .SPEED_AUTO, .SPEED_10_MBPS, .SPEED_100_MBPS, .SPEED_1_GBPS, .SPEED_2_5_GBPS, .SPEED_10_GBPS]

def LinkSpeed.fromInt (i : Int) : LinkSpeed :=
  enumFromInt LinkSpeed.members LinkSpeed.toInt .UNKNOWN i

inductive LinkDuplex
  | UNKNOWN | AUTO | HALF | FULL
deriving DecidableEq

def LinkDuplex.toInt : LinkDuplex → Int
  | .UNKNOWN => -1
  | .AUTO => 0
  | .HALF => 1
  | .FULL => 2

def LinkDuplex.members : List LinkDuplex :=
  [.UNKNOWN, .AUTO, .HALF, .FULL]

def LinkDuplex.fromInt (i : Int) : LinkDuplex :=
  enumFromInt LinkDuplex.members LinkDuplex.toInt .UNKNOWN i

inductive Eth802Dot1X
  | UNKNOWN | FORCE_UNAUTHORIZED | FORCE_AUTHORIZED | AUTO
deriving DecidableEq

def Eth802Dot1X.toInt : Eth802Dot1X → Int
  | .UNKNOWN => -1
  | .FORCE_UNAUTHORIZED => 0
  | .FORCE_AUTHORIZED => 1
  | .AUTO => 2

def Eth802Dot1X.members : List Eth802Dot1X :=
  [.UNKNOWN, .FORCE_UNAUTHORIZED, .FORCE_AUTHORIZED, .AUTO]

def Eth802Dot1X.fromInt (i : Int) : Eth802Dot1X :=
  enumFromInt Eth802Dot1X.members Eth802Dot1X.toInt .UNKNOWN i

inductive BandwidthControl
  | UNKNOWN | OFF | RATE_LIMIT | STORM_CONTROL
deriving DecidableEq

def BandwidthControl.toInt : BandwidthControl → Int
  | .UNKNOWN => -1
  | .OFF => 0
  | .RATE_LIMIT => 1
  | .STORM_CONTROL => 2

def BandwidthControl.members : List BandwidthControl :=
  [.UNKNOWN, .OFF, .RATE_LIMIT, .STORM_CONTROL]

def BandwidthControl.fromInt (i : Int) : BandwidthControl :=
  enumFromInt BandwidthControl.members BandwidthControl.toInt .UNKNOWN i

inductive PoEMode
  | NONE | DISABLED | ENABLED | USE_DEVICE_SETTINGS
deriving DecidableEq

def PoEMode.toInt : PoEMode → Int
  | .NONE => -1
  | .DISABLED => 0
  | .ENABLED => 1
  | .USE_DEVICE_SETTINGS => 2

def PoEMode.members : List PoEMode :=
  [.NONE, .DISABLED, .ENABLED, .USE_DEVICE_SETTINGS]

def PoEMode.fromInt (i : Int) : PoEMode :=
  enumFromInt PoEMode.members PoEMode.toInt .NONE i

inductive ConnectType
  | UNKNOWN | GUEST_WIRELESS | WIRELESS | WIRED
deriving DecidableEq

def ConnectType.toInt : ConnectType → Int
  | .UNKNOWN => -1
  | .GUEST_WIRELESS => 0
  | .WIRELESS => 1
  | .WIRED => 2

def ConnectType.members : List ConnectType :=
  [.UNKNOWN, .GUEST_WIRELESS, .WIRELESS, .WIRED]

def ConnectType.fromInt (i : Int) : ConnectType :=
  enumFromInt ConnectType.members ConnectType.toInt .UNKNOWN i

inductive RadioId
  | UNKNOWN | FREQ_2_4 | FREQ_5_1 | FREQ_5_2 | FREQ_6
deriving DecidableEq

def RadioId.toInt : RadioId → Int
  | .UNKNOWN => -1
  | .FREQ_2_4 => 0
  | .FREQ_5_1 => 1
  | .FREQ_5_2 => 2
  | .FREQ_6 => 3

def RadioId.members : List RadioId :=
  [.UNKNOWN, .FREQ_2_4, .FREQ_5_1, .FREQ_5_2, .FREQ_6]

def RadioId.fromInt (i : Int) : RadioId :=
  enumFromInt RadioId.members RadioId.toInt .UNKNOWN i

inductive WifiMode
  | UNKNOWN | A | B | G | NA | NG | AC | AXA | AXG
deriving DecidableEq

def WifiMode.toInt : WifiMode → Int
  | .UNKNOWN => -1
  | .A => 0
  | .B => 1
  | .G => 2
  | .NA => 3
  | .NG => 4
  | .AC => 5
  | .AXA => 6
  | .AXG => 7

def WifiMode.members : List WifiMode :=
  [.UNKNOWN, .A, .B, .G, .NA, .NG, .AC, .AXA, .AXG]

def WifiMode.fromInt (i : Int) : WifiMode :=
  enumFromInt WifiMode.members WifiMode.toInt .UNKNOWN i

inductive LedSetting
  | UNKNOWN | OFF | ON | SITE_SETTINGS
deriving DecidableEq

def LedSetting.toInt : LedSetting → Int
  | .UNKNOWN => -1
  | .OFF => 0
  | .ON => 1
  | .SITE_SETTINGS => 2

def LedSetting.members : List LedSetting :=
  [.UNKNOWN, .OFF, .ON, .SITE_SETTINGS]

def LedSetting.fromInt (i : Int) : LedSetting :=
  enumFromInt LedSetting.members LedSetting.toInt .UNKNOWN i

/-! Totality lemmas: every integer maps either to the member carrying that
exact code, or to the designated fallback member; and every declared member
code maps back to its member.  Together these say the unrecognized codes are
exactly the ones sent to the fallback. -/

theorem deviceStatus_total :
    (∀ i : Int, DeviceStatus.fromInt i = DeviceStatus.UNKNOWN ∨
      (DeviceStatus.fromInt i).toInt = i) ∧
    (∀ m : DeviceStatus, DeviceStatus.fromInt m.toInt = m) := by
  constructor
  · intro i
    exact enumFromInt_total DeviceStatus.members DeviceStatus.toInt .UNKNOWN i
  · intro m
    cases m <;> rfl

theorem deviceStatusCategory_total :
    (∀ i : Int, DeviceStatusCategory.fromInt i = DeviceStatusCategory.UNKNOWN ∨
      (DeviceStatusCategory.fromInt i).toInt = i) ∧
    (∀ m : DeviceStatusCategory, DeviceStatusCategory.fromInt m.toInt = m) := by
  constructor
  · intro i
    exact enumFromInt_total DeviceStatusCategory.members DeviceStatusCategory.toInt .UNKNOWN i
  · intro m
    cases m <;> rfl

theorem portType_total :
    (∀ i : Int, PortType.fromInt i = PortType.UNKNOWN ∨
      (PortType.fromInt i).toInt = i) ∧
    (∀ m : PortType, PortType.fromInt m.toInt = m) := by
  constructor
  · intro i
    exact enumFromInt_total PortType.members PortType.toInt .UNKNOWN i
  · intro m
    cases m <;> rfl

theorem gatewayPortType_total :
    (∀ i : Int, GatewayPortType.fromInt i = GatewayPortType.UNKNOWN ∨
      (GatewayPortType.fromInt i).toInt = i) ∧
    (∀ m : GatewayPortType, GatewayPortType.fromInt m.toInt = m) := by
  constructor
  · intro i
    exact enumFromInt_total GatewayPortType.members GatewayPortType.toInt .UNKNOWN i
  · intro m
    cases m <;> rfl

theorem gatewayPortMode_total :
    (∀ i : Int, GatewayPortMode.fromInt i = GatewayPortMode.DISABLED ∨
      (GatewayPortMode.fromInt i).toInt = i) ∧
    (∀ m : GatewayPortMode, GatewayPortMode.fromInt m.toInt = m) := by
  constructor
  · intro i
    exact enumFromInt_total GatewayPortMode.members GatewayPortMode.toInt .DISABLED i
  · intro m
    cases m <;> rfl

theorem linkStatus_total :
    (∀ i : Int, LinkStatus.fromInt i = LinkStatus.UNKNOWN ∨
      (LinkStatus.fromInt i).toInt = i) ∧
    (∀ m : LinkStatus, LinkStatus.fromInt m.toInt = m) := by
  constructor
  · intro i
    exact enumFromInt_total LinkStatus.members LinkStatus.toInt .UNKNOWN i
  · intro m
    cases m <;> rfl

theorem linkSpeed_total :
    (∀ i : Int, LinkSpeed.fromInt i = LinkSpeed.UNKNOWN ∨
      (LinkSpeed.fromInt i).toInt = i) ∧
    (∀ m : LinkSpeed, LinkSpeed.fromInt m.toInt = m) := by
  constructor
  · intro i
    exact enumFromInt_total LinkSpeed.members LinkSpeed.toInt .UNKNOWN i
  · intro m
    cases m <;> rfl

theorem linkDuplex_total :
    (∀ i : Int, LinkDuplex.fromInt i = LinkDuplex.UNKNOWN ∨
      (LinkDuplex.fromInt i).toInt = i) ∧
    (∀ m : LinkDuplex, LinkDuplex.fromInt m.toInt = m) := by
  constructor
  · intro i
    exact enumFromInt_total LinkDuplex.members LinkDuplex.toInt .UNKNOWN i
  · intro m
    cases m <;> rfl

theorem eth802Dot1X_total :
    (∀ i : Int, Eth802Dot1X.fromInt i = Eth802Dot1X.UNKNOWN ∨
      (Eth802Dot1X.fromInt i).toInt = i) ∧
    (∀ m : Eth802Dot1X, Eth802Dot1X.fromInt m.toInt = m) := by
  constructor
  · intro i
    exact enumFromInt_total Eth802Dot1X.members Eth802Dot1X.toInt .UNKNOWN i
  · intro m
    cases m <;> rfl

theorem bandwidthControl_total :
    (∀ i : Int, BandwidthControl.fromInt i = BandwidthControl.UNKNOWN ∨
      (BandwidthControl.fromInt i).toInt = i) ∧
    (∀ m : BandwidthControl, BandwidthControl.fromInt m.toInt = m) := by
  constructor
  · intro i
    exact enumFromInt_total BandwidthControl.members BandwidthControl.toInt .UNKNOWN i
  · intro m
    cases m <;> rfl

theorem poEMode_total :
    (∀ i : Int, PoEMode.fromInt i = PoEMode.NONE ∨
      (PoEMode.fromInt i).toInt = i) ∧
    (∀ m : PoEMode, PoEMode.fromInt m.toInt = m) := by
  constructor
  · intro i
    exact enumFromInt_total PoEMode.members PoEMode.toInt .NONE i
  · intro m
    cases m <;> rfl

theorem connectType_total :
    (∀ i : Int, ConnectType.fromInt i = ConnectType.UNKNOWN ∨
      (ConnectType.fromInt i).toInt = i) ∧
    (∀ m : ConnectType, ConnectType.fromInt m.toInt = m) := by
  constructor
  · intro i
    exact enumFromInt_total ConnectType.members ConnectType.toInt .UNKNOWN i
  · intro m
    cases m <;> rfl

theorem radioId_total :
    (∀ i : Int, RadioId.fromInt i = RadioId.UNKNOWN ∨
      (RadioId.fromInt i).toInt = i) ∧
    (∀ m : RadioId, RadioId.fromInt m.toInt = m) := by
  constructor
  · intro i
    exact enumFromInt_total RadioId.members RadioId.toInt .UNKNOWN i
  · intro m
    cases m <;> rfl

theorem wifiMode_total :
    (∀ i : Int, WifiMode.fromInt i = WifiMode.UNKNOWN ∨
      (WifiMode.fromInt i).toInt = i) ∧
    (∀ m : WifiMode, WifiMode.fromInt m.toInt = m) := by
  constructor
  · intro i
    exact enumFromInt_total WifiMode.members WifiMode.toInt .UNKNOWN i
  · intro m
    cases m <;> rfl

theorem ledSetting_total :
    (∀ i : Int, LedSetting.fromInt i = LedSetting.UNKNOWN ∨
      (LedSetting.fromInt i).toInt = i) ∧
    (∀ m : LedSetting, LedSetting.fromInt m.toInt = m) := by
  constructor
  · intro i
    exact enumFromInt_total LedSetting.members LedSetting.toInt .UNKNOWN i
  · intro m
    cases m <;> rfl

/-- Claim C10: every IntEnum in definitions.py parses totally.  For each of
the fifteen enums, construction from an arbitrary integer never fails: the
result is the member whose declared code is that integer when one exists, and
otherwise the class's designated fallback member (UNKNOWN for most, NONE for
PoEMode, DISABLED for GatewayPortMode); every declared member code maps back
to its member. -/
theorem c10_intenum_fallback_total :
    ((∀ i : Int, DeviceStatus.fromInt i = DeviceStatus.UNKNOWN ∨
        (DeviceStatus.fromInt i).toInt = i) ∧
      (∀ m : DeviceStatus, DeviceStatus.fromInt m.toInt = m)) ∧
    ((∀ i : Int, DeviceStatusCategory.fromInt i = DeviceStatusCategory.UNKNOWN ∨
        (DeviceStatusCategory.fromInt i).toInt = i) ∧
      (∀ m : DeviceStatusCategory, DeviceStatusCategory.fromInt m.toInt = m)) ∧
    ((∀ i : Int, PortType.fromInt i = PortType.UNKNOWN ∨
        (PortType.fromInt i).toInt = i) ∧
      (∀ m : PortType, PortType.fromInt m.toInt = m)) ∧
    ((∀ i : Int, GatewayPortType.fromInt i = GatewayPortType.UNKNOWN ∨
        (GatewayPortType.fromInt i).toInt = i) ∧
      (∀ m : GatewayPortType, GatewayPortType.fromInt m.toInt = m)) ∧
    ((∀ i : Int, GatewayPortMode.fromInt i = GatewayPortMode.DISABLED ∨
        (GatewayPortMode.fromInt i).toInt = i) ∧
      (∀ m : GatewayPortMode, GatewayPortMode.fromInt m.toInt = m)) ∧
    ((∀ i : Int, LinkStatus.fromInt i = LinkStatus.UNKNOWN ∨
        (LinkStatus.fromInt i).toInt = i) ∧
      (∀ m : LinkStatus, LinkStatus.fromInt m.toInt = m)) ∧
    ((∀ i : Int, LinkSpeed.fromInt i = LinkSpeed.UNKNOWN ∨
        (LinkSpeed.fromInt i).toInt = i) ∧
      (∀ m : LinkSpeed, LinkSpeed.fromInt m.toInt = m)) ∧
    ((∀ i : Int, LinkDuplex.fromInt i = LinkDuplex.UNKNOWN ∨
        (LinkDuplex.fromInt i).toInt = i) ∧
      (∀ m : LinkDuplex, LinkDuplex.fromInt m.toInt = m)) ∧
    ((∀ i : Int, Eth802Dot1X.fromInt i = Eth802Dot1X.UNKNOWN ∨
        (Eth802Dot1X.fromInt i).toInt = i) ∧
      (∀ m : Eth802Dot1X, Eth802Dot1X.fromInt m.toInt = m)) ∧
    ((∀ i : Int, BandwidthControl.fromInt i = BandwidthControl.UNKNOWN ∨
        (BandwidthControl.fromInt i).toInt = i) ∧
      (∀ m : BandwidthControl, BandwidthControl.fromInt m.toInt = m)) ∧
    ((∀ i : Int, PoEMode.fromInt i = PoEMode.NONE ∨
        (PoEMode.fromInt i).toInt = i) ∧
      (∀ m : PoEMode, PoEMode.fromInt m.toInt = m)) ∧
    ((∀ i : Int, ConnectType.fromInt i = ConnectType.UNKNOWN ∨
        (ConnectType.fromInt i).toInt = i) ∧
      (∀ m : ConnectType, ConnectType.fromInt m.toInt = m)) ∧
    ((∀ i : Int, RadioId.fromInt i = RadioId.UNKNOWN ∨
        (RadioId.fromInt i).toInt = i) ∧
      (∀ m : RadioId, RadioId.fromInt m.toInt = m)) ∧
    ((∀ i : Int, WifiMode.fromInt i = WifiMode.UNKNOWN ∨
        (WifiMode.fromInt i).toInt = i) ∧
      (∀ m : WifiMode, WifiMode.fromInt m.toInt = m)) ∧
    ((∀ i : Int, LedSetting.fromInt i = LedSetting.UNKNOWN ∨
        (LedSetting.fromInt i).toInt = i) ∧
      (∀ m : LedSetting, LedSetting.fromInt m.toInt = m)) :=
  ⟨deviceStatus_total, deviceStatusCategory_total, portType_total, gatewayPortType_total, gatewayPortMode_total, linkStatus_total, linkSpeed_total, linkDuplex_total, eth802Dot1X_total, bandwidthControl_total, poEMode_total, connectType_total, radioId_total, wifiMode_total, ledSetting_total⟩

/-! ## Pagination: OmadaApiConnection.iterate_pages

`iterate_pages` repeatedly requests increasing page numbers with a fixed
requested page size of 100.  After each response it sets
`current_page = response.currentPage + 1` and continues while
`totalRows > current_page * currentSize`, where `current_page` is the
already-incremented next page number.  The loop is modelled by recursion with
the yielded items accumulated in order; `fuel` bounds the number of page
fetches (the Python loop has no such bound, so any finite prefix of the run
is captured by a large enough fuel). -/

structure PageResponse where
  currentPage : Nat
  currentSize : Nat
  totalRows : Nat
  data : List Nat
deriving DecidableEq

def PAGE_SIZE : Nat := 100

def iteratePagesFrom (server : Nat → PageResponse) : Nat → Nat → List Nat
  | 0, _ => []
  | fuel + 1, page =>
    let r := server page
    let nextPage := r.currentPage + 1
    let hasNext := r.totalRows > nextPage * r.currentSize
    r.data ++ (if hasNext then iteratePagesFrom server fuel nextPage else [])

def iterate_pages (server : Nat → PageResponse) (fuel : Nat) : List Nat :=
  iteratePagesFrom server fuel 1

/-- Faithful fake paged backend for `totalRows` items (numbered in order):
page `p` (1-based) serves the `p`-th chunk of 100 items, echoing the
requested page number and the fixed requested page size, exactly the
`{currentPage, currentSize, totalRows, data}` shape the spec describes. -/
def pagedServer (totalRows : Nat) (page : Nat) : PageResponse :=
  { currentPage := page
    currentSize := PAGE_SIZE
    totalRows := totalRows
    data := ((List.range totalRows).drop ((page - 1) * PAGE_SIZE)).take PAGE_SIZE }

/-- Claim C1: FALSIFIED by the code.  Against the faithful fake backend,
`iterate_pages` yields exactly `totalRows` items for totalRows = 0, 1 and
100, but for totalRows = 101 it stops after the first page (since
`101 > 2 * 100` is false) and yields only 100 items, and for totalRows = 250
it stops after the second page and yields only 200 items: the final partial
page is never fetched because the stop condition uses the already-incremented
next page number.  The items that are yielded do come in server order. -/
theorem c1_iterate_pages_drops_final_partial_page :
    (iterate_pages (pagedServer 0) 10).length = 0 ∧
    (iterate_pages (pagedServer 1) 10).length = 1 ∧
    (iterate_pages (pagedServer 100) 10).length = 100 ∧
    (iterate_pages (pagedServer 101) 10).length = 100 ∧
    (iterate_pages (pagedServer 101) 10) = List.range 100 ∧
    (iterate_pages (pagedServer 250) 10).length = 200 := by
  refine ⟨by rfl, by rfl, by rfl, by rfl, by rfl, by rfl⟩

/-! ## Version gates

`OmadaApiConnection.login` compares the controller's reported version with
the baseline "5.1.0" using AwesomeVersion, i.e. numerically segment by
segment for dotted numeric versions, and takes its rejection branch when the
reported version is strictly below the baseline.  The legacy
`OmadaClient.login` instead compares the raw strings with Python's `<`
(code-point lexicographic) against "5.0.0".  In both classes the rejection
branch executes `raise UnsupportedControllerVersion(self._controller_version)`
while `_controller_version` is only a bare class-level annotation that is
first assigned AFTER the check; a bare annotation creates no attribute, so on
a fresh connection the argument read itself raises AttributeError, and only a
connection whose earlier login succeeded raises UnsupportedControllerVersion
— carrying that stale earlier version, not the newly reported one. -/

def charListLt : List Char → List Char → Bool
  | [], [] => false
  | [], _ :: _ => true
  | _ :: _, [] => false
  | a :: as, b :: bs =>
    if a.toNat < b.toNat then true
    else if a.toNat = b.toNat then charListLt as bs
    else false

/-- Python string `<`: lexicographic comparison of code points. -/
def pyStrLt (a b : String) : Bool :=
  charListLt a.data b.data

def splitDots (cs : List Char) : List (List Char) :=
  match cs with
  | [] => [[]]
  | c :: rest =>
    let tail := splitDots rest
    if c = '.' then [] :: tail
    else
      match tail with
      | [] => [[c]]
      | seg :: segs => (c :: seg) :: segs

def digitsToNat (cs : List Char) : Nat :=
  cs.foldl (fun n c => n * 10 + (c.toNat - 48)) 0

/-- Numeric version parse: dotted decimal segments, as AwesomeVersion reads a
plain numeric semantic version string. -/
def parseVersion (s : String) : List Nat :=
  (splitDots s.data).map digitsToNat

def versionListLt : List Nat → List Nat → Bool
  | _, [] => false
  | [], _ :: _ => true
  | a :: as, b :: bs =>
    if a < b then true
    else if a = b then versionListLt as bs
    else false

/-- AwesomeVersion `<` restricted to dotted numeric versions: numeric,
segment-by-segment comparison. -/
def awesomeVersionLt (a b : String) : Bool :=
  versionListLt (parseVersion a) (parseVersion b)

/-- OmadaApiConnection.login takes its version-rejection branch exactly when
this returns true: AwesomeVersion(version) < AwesomeVersion("5.1.0").  The
branch runs `raise UnsupportedControllerVersion(self._controller_version)`;
the exception actually raised is modelled by `apiLoginVersionGate`: on a
fresh connection the read of the never-assigned `_controller_version`
annotation raises AttributeError instead. -/
def apiConnectionVersionRejected (version : String) : Bool :=
  awesomeVersionLt version "5.1.0"

/-- Legacy OmadaClient.login takes its version-rejection branch exactly when
this returns true: the raw string comparison `version < "5.0.0"`.  The branch
runs the same `raise UnsupportedControllerVersion(self._controller_version)`
as the main client, so on a fresh connection it too raises AttributeError
(see `legacyLoginVersionGate`). -/
def legacyClientVersionRejected (version : String) : Bool :=
  pyStrLt version "5.0.0"

/-- Exception raised by login's version-gate step. -/
inductive LoginVersionError
  | attributeError
  | unsupportedControllerVersion (version : String)
deriving DecidableEq

/-- The `_controller_version` attribute: `none` models the bare class-level
annotation of a connection that has never completed a login (Python raises
AttributeError on reading it); `some v` the value stored by a previous
successful login. -/
structure ConnVersionState where
  controllerVersionAttr : Option String
deriving DecidableEq

/-- A freshly constructed connection: `_controller_version` never assigned. -/
def freshConn : ConnVersionState := ⟨none⟩

/-- Version-gate step of OmadaApiConnection.login: when the reported version
is below the 5.1.0 baseline, execute
`raise UnsupportedControllerVersion(self._controller_version)` — whose
argument read raises AttributeError when the attribute was never assigned,
and otherwise raises UnsupportedControllerVersion carrying the previously
stored version; on acceptance the reported version is stored. -/
def apiLoginVersionGate (st : ConnVersionState) (version : String) :
    Except LoginVersionError ConnVersionState :=
  if apiConnectionVersionRejected version then
    match st.controllerVersionAttr with
    | none => .error .attributeError
    | some prev => .error (.unsupportedControllerVersion prev)
  else .ok { controllerVersionAttr := some version }

/-- Version-gate step of the legacy OmadaClient.login: same raise site, but
the comparison is the raw string comparison against "5.0.0". -/
def legacyLoginVersionGate (st : ConnVersionState) (version : String) :
    Except LoginVersionError ConnVersionState :=
  if legacyClientVersionRejected version then
    match st.controllerVersionAttr with
    | none => .error .attributeError
    | some prev => .error (.unsupportedControllerVersion prev)
  else .ok { controllerVersionAttr := some version }

/-- Claim C4 counterexample: the claim fails at concrete inputs on both
cited login implementations.  On a fresh connection, the version "5.0.9"
(one patch below the baseline) does trigger the rejection branch of
OmadaApiConnection.login, but the exception raised is AttributeError — the
raise reads the never-assigned `_controller_version` — not the
UnsupportedControllerVersion the claim names.  And the legacy
OmadaClient.login rejects "10.0.0", which the claim says must succeed, since
its raw lexicographic comparison misorders it below "5.0.0" although
numerically 10.0.0 is far above the baseline. -/
theorem c4_counterexample_version_gate :
    apiLoginVersionGate freshConn "5.0.9" = .error .attributeError ∧
    (∀ v, LoginVersionError.attributeError ≠ .unsupportedControllerVersion v) ∧
    legacyLoginVersionGate freshConn "10.0.0" = .error .attributeError ∧
    versionListLt (parseVersion "10.0.0") (parseVersion "5.0.0") = false := by
  refine ⟨by rfl, ?_, by rfl, by rfl⟩
  intro v h
  cases h

/-- Claim C4 (amended): OmadaApiConnection.login's version gate compares
parsed semantic versions, not strings: for any version with three numeric
segments it takes the rejection branch exactly when the version is
numerically below the 5.1.0 baseline — "5.0.9" is rejected, "10.0.0" (which
raw string comparison would misorder below "5.1.0") is accepted and stored.
The rejection branch, however, raises AttributeError on a fresh connection
and raises UnsupportedControllerVersion only on a connection whose earlier
login already stored a version — then carrying that stale stored version.
The legacy OmadaClient.login compares raw strings against "5.0.0" and wrongly
rejects "10.0.0" (likewise with AttributeError on a fresh connection). -/
theorem c4_version_gate_semantic :
    (∀ v maj mi pa, parseVersion v = [maj, mi, pa] →
      (apiConnectionVersionRejected v = true ↔ (maj < 5 ∨ (maj = 5 ∧ mi < 1)))) ∧
    (∀ (st : ConnVersionState) (v : String), apiConnectionVersionRejected v = false →
      apiLoginVersionGate st v = .ok ⟨some v⟩) ∧
    (∀ v : String, apiConnectionVersionRejected v = true →
      apiLoginVersionGate freshConn v = .error .attributeError) ∧
    (∀ (v prev : String), apiConnectionVersionRejected v = true →
      apiLoginVersionGate ⟨some prev⟩ v = .error (.unsupportedControllerVersion prev)) ∧
    apiConnectionVersionRejected "5.0.9" = true ∧
    apiConnectionVersionRejected "10.0.0" = false ∧
    pyStrLt "10.0.0" "5.1.0" = true ∧
    legacyClientVersionRejected "10.0.0" = true ∧
    legacyLoginVersionGate freshConn "10.0.0" = .error .attributeError := by
  refine ⟨?_, ?_, ?_, ?_, by rfl, by rfl, by rfl, by rfl, by rfl⟩
  · intro v maj mi pa h
    unfold apiConnectionVersionRejected awesomeVersionLt
    rw [h]
    have hb : parseVersion "5.1.0" = [5, 1, 0] := by rfl
    rw [hb]
    simp only [versionListLt]
    split_ifs <;> simp_all
  · intro st v h
    simp [apiLoginVersionGate, h]
  · intro v h
    simp [apiLoginVersionGate, h, freshConn]
  · intro v prev h
    simp [apiLoginVersionGate, h]

/-- Claim C4 witness: the semantic characterization applied at "5.0.9" (one
patch below the 5.1.0 baseline, rejected with AttributeError on a fresh
connection, with UnsupportedControllerVersion carrying the stale version on a
previously logged-in one) and at "5.2.0" (accepted and stored). -/
theorem c4_version_gate_semantic_witness :
    parseVersion "5.0.9" = [5, 0, 9] ∧
    (apiConnectionVersionRejected "5.0.9" = true ↔ (5 < 5 ∨ (5 = 5 ∧ 0 < 1))) ∧
    apiConnectionVersionRejected "5.0.9" = true ∧
    apiLoginVersionGate freshConn "5.0.9" = .error .attributeError ∧
    apiLoginVersionGate ⟨some "5.2.0"⟩ "5.0.9" =
      .error (.unsupportedControllerVersion "5.2.0") ∧
    apiConnectionVersionRejected "5.2.0" = false ∧
    apiLoginVersionGate freshConn "5.2.0" = .ok ⟨some "5.2.0"⟩ := by
  have hr : apiConnectionVersionRejected "5.0.9" = true := by rfl
  have ha : apiConnectionVersionRejected "5.2.0" = false := by rfl
  exact ⟨by rfl, c4_version_gate_semantic.1 "5.0.9" 5 0 9 (by rfl), hr,
    c4_version_gate_semantic.2.2.1 "5.0.9" hr,
    c4_version_gate_semantic.2.2.2.1 "5.0.9" "5.2.0" hr, ha,
    c4_version_gate_semantic.2.1 freshConn "5.2.0" ha⟩

/-! ## Login freshness: OmadaApiConnection._check_login

State: the stored CSRF token and last-logon timestamp.  The outcome of the
single `loginStatus` request the method may issue is passed in explicitly:
either any raised failure (network error, missing key, rejected request) or a
response carrying the boolean `login` flag.  The result triple is
(returned boolean, number of loginStatus calls issued, new state); the
function is total, so no exception ever propagates to the caller. -/

structure ApiConnState where
  csrfToken : Option String
  lastLogon : Int
deriving DecidableEq

inductive StatusCallResult
  | netError
  | response (loginFlag : Bool)
deriving DecidableEq

def check_login (st : ApiConnState) (now : Int) (call : StatusCallResult) :
    Bool × Nat × ApiConnState :=
  match st.csrfToken with
  | none => (false, 0, st)
  | some _ =>
    if now - st.lastLogon < 60 * 60 then
      (true, 0, st)
    else
      match call with
      | .netError => (false, 1, st)
      | .response b => (b, 1, if b then { st with lastLogon := now } else st)

/-- Claim C8 counterexample: with no stored CSRF token, `_check_login`
returns false immediately and issues zero loginStatus calls, whereas the
claim's "otherwise" branch (which covers the no-token case) asserts exactly
one loginStatus call is made. -/
theorem c8_counterexample_no_token_no_call :
    check_login ⟨none, 0⟩ 7200 (.response true) = (false, 0, ⟨none, 0⟩) ∧
    (0 : Nat) ≠ 1 := by
  refine ⟨by rfl, by decide⟩

/-- Claim C8 (amended): `_check_login` returns true with zero network calls
when a token exists and less than one hour has elapsed since the last
confirmed login; it returns false with zero network calls when no token
exists; otherwise (token present, an hour or more elapsed) it issues exactly
one loginStatus call, and every failure of that call — a raised error or a
rejected login status — yields false; a confirmed status yields true.  The
function is total, so it never propagates an exception. -/
theorem c8_check_login_freshness :
    ∀ (st : ApiConnState) (now : Int) (call : StatusCallResult),
      (st.csrfToken = none → check_login st now call = (false, 0, st)) ∧
      (st.csrfToken ≠ none → now - st.lastLogon < 3600 →
        check_login st now call = (true, 0, st)) ∧
      (st.csrfToken ≠ none → ¬(now - st.lastLogon < 3600) →
        (check_login st now call).2.1 = 1 ∧
        (call = .netError → (check_login st now call).1 = false) ∧
        (∀ b, call = .response b → (check_login st now call).1 = b)) := by
  intro st now call
  rcases st with ⟨tok, last⟩
  rcases tok with _ | t
  · refine ⟨fun _ => rfl, fun h _ => absurd rfl h, fun h _ => absurd rfl h⟩
  · refine ⟨fun h => by simp_all, fun _ h => ?_, fun _ h => ?_⟩
    · simp only [check_login]
      rw [if_pos (by simpa using h)]
    · have h60 : ¬(now - last < 60 * 60) := by simpa using h
      rcases call with _ | b
      · refine ⟨?_, fun _ => ?_, fun b hb => by simp at hb⟩ <;>
          · simp only [check_login]
            rw [if_neg h60]
      · refine ⟨?_, fun hne => by simp at hne, fun b2 hb => ?_⟩
        · simp only [check_login]
          rw [if_neg h60]
        · cases hb
          simp only [check_login]
          rw [if_neg h60]

/-- Claim C8 witness: a state with a token whose last login is stale by more
than an hour issues exactly one loginStatus call, and a failing call yields
false. -/
theorem c8_check_login_freshness_witness :
    (ApiConnState.mk (some "token") 0).csrfToken ≠ none ∧
    ¬((7200 : Int) - (ApiConnState.mk (some "token") 0).lastLogon < 3600) ∧
    (check_login ⟨some "token", 0⟩ 7200 .netError).2.1 = 1 ∧
    (check_login ⟨some "token", 0⟩ 7200 .netError).1 = false := by
  have h1 : (ApiConnState.mk (some "token") 0).csrfToken ≠ none := by simp
  have h2 : ¬((7200 : Int) - (ApiConnState.mk (some "token") 0).lastLogon < 3600) := by
    simp
  have h := (c8_check_login_freshness ⟨some "token", 0⟩ 7200 .netError).2.2 h1 h2
  exact ⟨h1, h2, h.1, h.2.1 rfl⟩

/-! ## Session ownership: OmadaApiConnection session lifecycle

`_own_session` is only a class-level annotation: the attribute is assigned
(to True) solely inside `_get_session` when the session is created
internally; it is never assigned when the caller supplied a session.  Reading
an unassigned attribute raises AttributeError, which the model surfaces as an
explicit error value.  `close` closes the session when one is present. -/

structure SessionState where
  sessionOpen : Bool
  ownSessionAttr : Option Bool
deriving DecidableEq

def get_session (st : SessionState) : SessionState :=
  if st.sessionOpen then st
  else { sessionOpen := true, ownSessionAttr := some true }

def closeSession (st : SessionState) : SessionState :=
  if st.sessionOpen then { st with sessionOpen := false } else st

inductive PyAttrError
  | attributeError
deriving DecidableEq

/-- Exit path of the scoped session (both the `__aexit__` body and the
`except` branch of `__aenter__` run the same guard): close the session only
when `_own_session` is true; reading the attribute when it was never assigned
raises AttributeError, leaving the session untouched. -/
def scopedExit (st : SessionState) : Except PyAttrError SessionState :=
  match st.ownSessionAttr with
  | none => .error .attributeError
  | some true => .ok (closeSession st)
  | some false => .ok st

/-- Initial state when the caller supplied a websession: the session exists,
`_own_session` was never assigned. -/
def suppliedSessionInit : SessionState := ⟨true, none⟩

/-- Initial state when no websession was supplied: the first request will
create one and set `_own_session = True`. -/
def internalSessionInit : SessionState := ⟨false, none⟩

/-- Claim C9: on scoped-session exit — the same code runs on the normal and
the error exit path — the HTTP session is closed exactly when the library
created it internally.  Starting from a caller-supplied session, after any
number of requests (each fetching the session), the exit guard never closes
the caller's session (it raises AttributeError on the unassigned
`_own_session` attribute, leaving the session open).  Starting with no
supplied session, after at least one request has created the session
internally, the exit guard closes it. -/
theorem c9_close_iff_internal :
    (∀ n : Nat, get_session^[n] suppliedSessionInit = suppliedSessionInit ∧
      scopedExit (get_session^[n] suppliedSessionInit) = .error .attributeError ∧
      (get_session^[n] suppliedSessionInit).sessionOpen = true) ∧
    (∀ n : Nat, 0 < n →
      get_session^[n] internalSessionInit = ⟨true, some true⟩ ∧
      scopedExit (get_session^[n] internalSessionInit) = .ok ⟨false, some true⟩) := by
  constructor
  · intro n
    have hfix : get_session^[n] suppliedSessionInit = suppliedSessionInit := by
      induction n with
      | zero => rfl
      | succ k ih => rw [Function.iterate_succ_apply, show get_session suppliedSessionInit = suppliedSessionInit from rfl, ih]
    exact ⟨hfix, by rw [hfix]; rfl, by rw [hfix]; rfl⟩
  · intro n hn
    have hfix : get_session^[n] internalSessionInit = ⟨true, some true⟩ := by
      induction n with
      | zero => exact absurd hn (by simp)
      | succ k ih =>
        rcases Nat.eq_zero_or_pos k with hk | hk
        · subst hk; rfl
        · rw [Function.iterate_succ_apply', ih hk]
          rfl
    exact ⟨hfix, by rw [hfix]; rfl⟩

/-- Claim C9 witness: after one request on each path — the caller-supplied
session stays open and unclosed on exit; the internally created session is
closed on exit. -/
theorem c9_close_iff_internal_witness :
    (scopedExit (get_session^[1] suppliedSessionInit) = .error .attributeError ∧
      (get_session^[1] suppliedSessionInit).sessionOpen = true) ∧
    ((0 : Nat) < 1 ∧
      scopedExit (get_session^[1] internalSessionInit) = .ok ⟨false, some true⟩) :=
  ⟨⟨(c9_close_iff_internal.1 1).2.1, (c9_close_iff_internal.1 1).2.2⟩,
    ⟨by decide, (c9_close_iff_internal.2 1 (by decide)).2⟩⟩

/-! ## Site operations: omadasiteclient.py

Entities carry exactly the fields the site client reads.  Some accessor
properties consumed by the site client (tag ids, voice-network and eee/flow
control/loopback-detect-vlan flags of `OmadaSwitchPortDetails`, and the
matching profile accessors) are referenced by omadasiteclient.py but their
trivial accessor definitions are not part of the source tree snapshot; they
are modelled as plain data fields of the entity shape, which is all the site
client uses of them.  Each operation takes the server's responses as an
explicit environment and returns its result paired with the ordered list of
requests it issued. -/

/-- Modelled from the spec and the site client's imports: `NetworkTagsSetting`
is imported from definitions.py but its enum definition is missing from the
source snapshot.  The site client references only its UNKNOWN and CUSTOM
members: the payload key is emitted when the merged value is not UNKNOWN, and
the tagged/untagged network id lists only when it is CUSTOM.  A third member
stands in for any other declared mode. -/
inductive NetworkTagsSetting
  | UNKNOWN | DEFAULT | CUSTOM
deriving DecidableEq

structure OmadaDevice where
  type : String
  mac : String
deriving DecidableEq

inductive MacOrDevice
  | mac (m : String)
  | device (d : OmadaDevice)
deriving DecidableEq

inductive OmadaErr
  | invalidDevice
  | stopIteration
deriving DecidableEq

/-- Fields of OmadaSwitchPortDetails read by the site client. -/
structure OmadaSwitchPortDetails where
  port : Nat
  name : String
  profileId : String
  linkSpeed : LinkSpeed
  duplex : LinkDuplex
  profileOverrideEnable : Bool
  tagIds : List String
  nativeNetworkId : Option String
  networkTagsSetting : NetworkTagsSetting
  taggedNetworkIds : List String
  untaggedNetworkIds : List String
  hasVoiceNetwork : Bool
  voiceNetworkEnabled : Bool
  voiceNetworkId : String
  poe : PoEMode
  dot1x : Eth802Dot1X
  lldpMedEnable : Bool
  loopbackDetectEnable : Bool
  spanningTreeEnable : Bool
  portIsolationEnable : Bool
  hasEee : Bool
  eeeEnabled : Bool
  hasFlowControl : Bool
  flowControlEnabled : Bool
  hasLoopbackDetectVlanBased : Bool
  loopbackDetectVlanBasedEnabled : Bool
deriving DecidableEq

/-- Fields of OmadaPortProfile read by the site client. -/
structure OmadaPortProfile where
  profileId : String
  poe : PoEMode
  dot1x : Eth802Dot1X
  lldpMedEnable : Bool
  loopbackDetectEnable : Bool
  spanningTreeEnable : Bool
  portIsolationEnable : Bool
  hasEee : Bool
  eeeEnabled : Bool
  hasFlowControl : Bool
  flowControlEnabled : Bool
  hasLoopbackDetectVlanBased : Bool
  loopbackDetectVlanBasedEnabled : Bool
deriving DecidableEq

/-- PortProfileOverrides dataclass: None means "leave unchanged". -/
structure PortProfileOverrides where
  enablePoe : Option Bool := none
  dot1xMode : Option Eth802Dot1X := none
  lldpMedEnable : Option Bool := none
  loopbackDetect : Option Bool := none
  spanningTreeEnable : Option Bool := none
  portIsolation : Option Bool := none
  loopbackDetectVlanBased : Option Bool := none
  flowControl : Option Bool := none
  eee : Option Bool := none
deriving DecidableEq

/-- SwitchPortSettings dataclass: None means "leave unchanged". -/
structure SwitchPortSettings where
  name : Option String := none
  profileId : Option String := none
  nativeNetworkId : Option String := none
  duplex : Option LinkDuplex := none
  linkSpeed : Option LinkSpeed := none
  tagIds : Option (List String) := none
  networkTagsSetting : Option NetworkTagsSetting := none
  taggedNetworkIds : Option (List String) := none
  untaggedNetworkIds : Option (List String) := none
  voiceNetwork : Option Bool := none
  voiceNetworkId : Option String := none
  profileOverrideEnabled : Option Bool := none
  profileOverrides : Option PortProfileOverrides := none
deriving DecidableEq

structure AccessPointPortSettings where
  enablePoe : Option Bool := none
  vlanEnable : Option Bool := none
  vlanId : Option Nat := none
deriving DecidableEq

structure GatewayPortSettings where
  enablePoe : Option Bool := none
deriving DecidableEq

/-- Python truthiness of an optional string: None and "" are falsy. -/
def optStrTruthy : Option String → Bool
  | none => false
  | some s => decide (s ≠ "")

/-- Python `a or b` for an optional string `a` and string `b`. -/
def pyOrStr (a : Option String) (b : String) : String :=
  if optStrTruthy a then a.getD b else b

/-- Python `a or b` for two optional strings. -/
def pyOrOptStr (a b : Option String) : Option String :=
  if optStrTruthy a then a else b

/-- Python truthiness of an optional bool: only `Some True` is truthy. -/
def optBoolTruthy : Option Bool → Bool
  | some true => true
  | _ => false

/-- Python `a if a is not None else b`. -/
def mergeOpt {x : Type} (a b : Option x) : Option x :=
  match a with
  | some v => some v
  | none => b

/-- Outbound PATCH payload for a switch port.  Optional fields model keys
that are only present on some paths; `none` means the key is absent.  (In
the override branch the six always-assigned keys carry values merged from
overrides that `get_switch_port_overrides` always populates, so a present key
never carries a null value.) -/
structure SwitchPortPatchPayload where
  name : String
  profileId : String
  linkSpeed : LinkSpeed
  duplex : LinkDuplex
  profileOverrideEnable : Bool
  tagIds : List String
  nativeNetworkId : Option String := none
  networkTagsSetting : Option NetworkTagsSetting := none
  tagNetworkIds : Option (List String) := none
  untagNetworkIds : Option (List String) := none
  voiceNetworkEnable : Option Bool := none
  voiceNetworkId : Option String := none
  operation : Option String := none
  bandWidthCtrlType : Option BandwidthControl := none
  poe : Option PoEMode := none
  dot1x : Option Eth802Dot1X := none
  lldpMedEnable : Option Bool := none
  loopbackDetectEnable : Option Bool := none
  spanningTreeEnable : Option Bool := none
  portIsolationEnable : Option Bool := none
  topoNotifyEnable : Option Bool := none
  eeeEnable : Option Bool := none
  flowControlEnable : Option Bool := none
  loopbackDetectVlanBasedEnable : Option Bool := none
  dhcpL2RelayEnable : Option Bool := none
deriving DecidableEq

/-- A LAN port on an access point (fields the site client reads). -/
structure OmadaAccesPointLanPortSettings where
  portName : String
  supportsVlan : Bool
  localVlanEnable : Bool
  localVlanId : Nat
  supportsPoe : Bool
  poeEnable : Bool
deriving DecidableEq

structure OmadaAccessPoint where
  mac : String
  lanPortSettings : List OmadaAccesPointLanPortSettings
deriving DecidableEq

/-- One entry of the `lanPortSettings` array of the access-point PATCH. -/
structure ApPortSettingEntry where
  id : String
  lanPort : String
  localVlanEnable : Bool
  localVlanId : Nat
  poeOutEnable : Bool
deriving DecidableEq

/-- One entry of a gateway's `poeSettings` array (both in the device data and
in the composed PATCH payload). -/
structure PoeSettingEntry where
  portId : Nat
  enable : Bool
deriving DecidableEq

structure GatewayPortConfigRaw where
  port : Nat
deriving DecidableEq

/-- Raw gateway device data (fields the site client reads). -/
structure OmadaGateway where
  mac : String
  supportPoe : Bool
  lldpEnable : Bool
  echoServer : Option String
  portConfigs : List GatewayPortConfigRaw
  poeSettings : List PoeSettingEntry
deriving DecidableEq

/-- View of one gateway port config: the port number and the PoE flag joined
from the device's `poeSettings` array (absent entry means no PoE support on
that port). -/
structure OmadaGatewayPortConfig where
  port : Nat
  poeEnabled : Option Bool
deriving DecidableEq

def OmadaGatewayPortConfig.poe_mode (c : OmadaGatewayPortConfig) : PoEMode :=
  match c.poeEnabled with
  | some true => PoEMode.ENABLED
  | some false => PoEMode.DISABLED
  | none => PoEMode.NONE

/-- OmadaGateway.port_configs: when the gateway supports PoE, the poeSettings
array is turned into a port-id keyed map (later entries win, as in a Python
dict comprehension) and each port config entry is joined with its flag. -/
def OmadaGateway.port_configs (gw : OmadaGateway) : List OmadaGatewayPortConfig :=
  gw.portConfigs.map (fun p =>
    { port := p.port
      poeEnabled :=
        if gw.supportPoe then
          (gw.poeSettings.reverse.find? (fun x => decide (x.portId = p.port))).map
            PoeSettingEntry.enable
        else none })

/-- The gateway PoE PATCH payload composed by set_gateway_port_settings. -/
structure GatewayPoePayload where
  lldpEnable : Bool
  echoServer : Option String
  poeSettings : List PoeSettingEntry
deriving DecidableEq

/-- Requests issued against the controller, in order. -/
inductive Req
  | getDevices
  | getSwitchPort (mac : String) (portNum : Nat)
  | getPortProfiles
  | patchSwitchPort (mac : String) (portNum : Nat) (payload : SwitchPortPatchPayload)
  | getAccessPoint (mac : String)
  | patchAccessPoint (mac : String) (lanPortSettings : List ApPortSettingEntry)
  | getGateway (mac : String)
  | patchGatewayPoe (mac : String) (payload : GatewayPoePayload)
deriving DecidableEq

/-! ## Switch port operations -/

structure SwitchEnv where
  controllerVersion : String
  portResponse : OmadaSwitchPortDetails
  profiles : List OmadaPortProfile
  patchResponse : OmadaSwitchPortDetails
  portResponseAfter : OmadaSwitchPortDetails
deriving DecidableEq

/-- get_port_profile: list the profiles and look the id up; a missing id
raises InvalidDevice (the lookup uses `next(..., None)` with a default, so
the guard is live). -/
def get_port_profile (profiles : List OmadaPortProfile) (profileId : String) :
    Except OmadaErr OmadaPortProfile :=
  match profiles.find? (fun p => decide (p.profileId = profileId)) with
  | none => .error .invalidDevice
  | some p => .ok p

/-- Override values read back from an overridden port
(get_switch_port_overrides, override branch). -/
def overridesFromPort (p : OmadaSwitchPortDetails) : PortProfileOverrides :=
  { enablePoe := some (decide (p.poe = PoEMode.ENABLED))
    dot1xMode := some p.dot1x
    lldpMedEnable := some p.lldpMedEnable
    loopbackDetect := some p.loopbackDetectEnable
    spanningTreeEnable := some p.spanningTreeEnable
    portIsolation := some p.portIsolationEnable
    eee := if p.hasEee then some p.eeeEnabled else none
    flowControl := if p.hasFlowControl then some p.flowControlEnabled else none
    loopbackDetectVlanBased :=
      if p.hasLoopbackDetectVlanBased then some p.loopbackDetectVlanBasedEnabled
      else none }

/-- Effective values taken from the referenced profile when the port has no
override (get_switch_port_overrides, profile branch); the PoE baseline is
"profile PoE mode is anything other than disabled". -/
def overridesFromProfile (prof : OmadaPortProfile) : PortProfileOverrides :=
  { enablePoe := some (decide (prof.poe ≠ PoEMode.DISABLED))
    dot1xMode := some prof.dot1x
    lldpMedEnable := some prof.lldpMedEnable
    loopbackDetect := some prof.loopbackDetectEnable
    spanningTreeEnable := some prof.spanningTreeEnable
    portIsolation := some prof.portIsolationEnable
    eee := if prof.hasEee then some prof.eeeEnabled else none
    flowControl := if prof.hasFlowControl then some prof.flowControlEnabled else none
    loopbackDetectVlanBased :=
      if prof.hasLoopbackDetectVlanBased then some prof.loopbackDetectVlanBasedEnabled
      else none }

/-- get_switch_port_overrides: issues a fresh GET of the port; if the fresh
state is overridden the port's own values are returned, otherwise the
referenced profile is fetched (via the profile list) and its values are
returned.  The profile fetch can fail with InvalidDevice. -/
def get_switch_port_overrides (env : SwitchEnv) (mac : String) (portNum : Nat) :
    Except OmadaErr PortProfileOverrides × List Req :=
  let port := env.portResponse
  if port.profileOverrideEnable then
    (.ok (overridesFromPort port), [.getSwitchPort mac portNum])
  else
    match get_port_profile env.profiles port.profileId with
    | .error e => (.error e, [.getSwitchPort mac portNum, .getPortProfiles])
    | .ok prof =>
      (.ok (overridesFromProfile prof), [.getSwitchPort mac portNum, .getPortProfiles])

/-- The base PATCH payload of update_switch_port, before the override block:
each field is the caller's setting when supplied, otherwise the port's
current value; `name`, `profileId` and `nativeNetworkId` use Python `or`, so
an explicitly supplied empty string falls back to the current value. -/
def buildSwitchPortBasePayload (settings : SwitchPortSettings)
    (port : OmadaSwitchPortDetails) : SwitchPortPatchPayload :=
  let overrideSetting := settings.profileOverrideEnabled.getD port.profileOverrideEnable
  let nts := settings.networkTagsSetting.getD port.networkTagsSetting
  let nativeV := pyOrOptStr settings.nativeNetworkId port.nativeNetworkId
  let voiceSetting := settings.voiceNetwork.getD port.voiceNetworkEnabled
  { name := pyOrStr settings.name port.name
    profileId := pyOrStr settings.profileId port.profileId
    linkSpeed := settings.linkSpeed.getD port.linkSpeed
    duplex := settings.duplex.getD port.duplex
    profileOverrideEnable := overrideSetting
    tagIds := settings.tagIds.getD port.tagIds
    nativeNetworkId := if optStrTruthy nativeV then nativeV else none
    networkTagsSetting := if nts ≠ NetworkTagsSetting.UNKNOWN then some nts else none
    tagNetworkIds :=
      if nts ≠ NetworkTagsSetting.UNKNOWN ∧ nts = NetworkTagsSetting.CUSTOM then
        some (settings.taggedNetworkIds.getD port.taggedNetworkIds)
      else none
    untagNetworkIds :=
      if nts ≠ NetworkTagsSetting.UNKNOWN ∧ nts = NetworkTagsSetting.CUSTOM then
        some (settings.untaggedNetworkIds.getD port.untaggedNetworkIds)
      else none
    voiceNetworkEnable := if port.hasVoiceNetwork then some voiceSetting else none
    voiceNetworkId :=
      if port.hasVoiceNetwork ∧ voiceSetting then
        some (settings.voiceNetworkId.getD port.voiceNetworkId)
      else none }

/-- The override block of update_switch_port: pins operation and bandwidth
control, merges each override field (caller's explicit override wins over the
current effective value), and branches on the controller version: below 6 it
pins topoNotifyEnable, otherwise it emits the eee/flow-control/vlan-based
loopback keys when a merged value exists and pins the DHCP L2 relay flag. -/
def addOverridePayload (base : SwitchPortPatchPayload)
    (newO existingO : PortProfileOverrides) (lt6 : Bool) : SwitchPortPatchPayload :=
  let pl := { base with
    operation := some "switching"
    bandWidthCtrlType := some BandwidthControl.OFF
    poe := some (if optBoolTruthy (mergeOpt newO.enablePoe existingO.enablePoe)
      then PoEMode.ENABLED else PoEMode.DISABLED)
    dot1x := mergeOpt newO.dot1xMode existingO.dot1xMode
    lldpMedEnable := mergeOpt newO.lldpMedEnable existingO.lldpMedEnable
    loopbackDetectEnable := mergeOpt newO.loopbackDetect existingO.loopbackDetect
    spanningTreeEnable := mergeOpt newO.spanningTreeEnable existingO.spanningTreeEnable
    portIsolationEnable := mergeOpt newO.portIsolation existingO.portIsolation }
  if lt6 then { pl with topoNotifyEnable := some false }
  else { pl with
    eeeEnable := mergeOpt newO.eee existingO.eee
    flowControlEnable := mergeOpt newO.flowControl existingO.flowControl
    loopbackDetectVlanBasedEnable :=
      mergeOpt newO.loopbackDetectVlanBased existingO.loopbackDetectVlanBased
    dhcpL2RelayEnable := some false }

/-- Body of update_switch_port after the mac is known: resolve the port
(fresh GET when an index was given), build the payload, fetch current
effective overrides when the override flag will be set, PATCH (its response
is discarded), then GET the port again and return that fresh state. -/
def updateSwitchPortAt (env : SwitchEnv) (mac : String)
    (portRef : Sum Nat OmadaSwitchPortDetails) (settings : SwitchPortSettings) :
    Except OmadaErr OmadaSwitchPortDetails × List Req :=
  let fetched : OmadaSwitchPortDetails × List Req :=
    match portRef with
    | .inl idx => (env.portResponse, [.getSwitchPort mac idx])
    | .inr p => (p, [])
  let port := fetched.1
  let overrideSetting := settings.profileOverrideEnabled.getD port.profileOverrideEnable
  let base := buildSwitchPortBasePayload settings port
  if overrideSetting then
    match get_switch_port_overrides env mac port.port with
    | (.error e, t2) => (.error e, fetched.2 ++ t2)
    | (.ok existing, t2) =>
      let payload := addOverridePayload base (settings.profileOverrides.getD {})
        existing (awesomeVersionLt env.controllerVersion "6")
      (.ok env.portResponseAfter,
        fetched.2 ++ t2 ++ [.patchSwitchPort mac port.port payload,
          .getSwitchPort mac port.port])
  else
    (.ok env.portResponseAfter,
      fetched.2 ++ [.patchSwitchPort mac port.port base, .getSwitchPort mac port.port])

/-- update_switch_port: a device handle whose type tag is not "switch" fails
with InvalidDevice before any request is issued. -/
def update_switch_port (env : SwitchEnv) (dev : MacOrDevice)
    (portRef : Sum Nat OmadaSwitchPortDetails) (settings : SwitchPortSettings) :
    Except OmadaErr OmadaSwitchPortDetails × List Req :=
  match dev with
  | .device d =>
    if d.type = "switch" then updateSwitchPortAt env d.mac portRef settings
    else (.error .invalidDevice, [])
  | .mac m => updateSwitchPortAt env m portRef settings

/-! ## Access point operations -/

structure ApEnv where
  apResponse : OmadaAccessPoint
  apPatchResponse : OmadaAccessPoint
  apResponseAfter : OmadaAccessPoint
deriving DecidableEq

/-- get_access_point: a device handle whose type tag is not "ap" fails with
InvalidDevice before any request; otherwise a GET of the access point. -/
def get_access_point (env : ApEnv) (dev : MacOrDevice) :
    Except OmadaErr OmadaAccessPoint × List Req :=
  match dev with
  | .device d =>
    if d.type = "ap" then (.ok env.apResponse, [.getAccessPoint d.mac])
    else (.error .invalidDevice, [])
  | .mac m => (.ok env.apResponse, [.getAccessPoint m])

/-- get_access_point_port: fetch the access point, then look the port name up
with `next(...)` WITHOUT a default: a missing port raises StopIteration, and
the subsequent `if port is None: raise InvalidDevice(...)` guard is dead
code. -/
def get_access_point_port (env : ApEnv) (dev : MacOrDevice) (portName : String) :
    Except OmadaErr OmadaAccesPointLanPortSettings × List Req :=
  match get_access_point env dev with
  | (.error e, t) => (.error e, t)
  | (.ok ap, t) =>
    match ap.lanPortSettings.find? (fun p => decide (p.portName = portName)) with
    | none => (.error .stopIteration, t)
    | some p => (.ok p, t)

/-- update_access_point_port: fetch the access point, compose the
lanPortSettings entry for the named port (caller's value when supplied and
applicable, else the current value), PATCH — and extract the returned port
from the PATCH response body itself; no GET is issued after the PATCH. -/
def update_access_point_port (env : ApEnv) (dev : MacOrDevice) (portName : String)
    (setting : AccessPointPortSettings) :
    Except OmadaErr OmadaAccesPointLanPortSettings × List Req :=
  match get_access_point env dev with
  | (.error e, t) => (.error e, t)
  | (.ok ap, t0) =>
    let entries := (ap.lanPortSettings.filter (fun ps => decide (ps.portName = portName))).map
      (fun ps =>
        { id := portName
          lanPort := portName
          localVlanEnable := setting.vlanEnable.getD ps.localVlanEnable
          localVlanId := setting.vlanId.getD ps.localVlanId
          poeOutEnable :=
            match setting.enablePoe with
            | some b => if ps.supportsPoe then b else ps.poeEnable
            | none => ps.poeEnable } : OmadaAccesPointLanPortSettings → ApPortSettingEntry)
    let t1 := t0 ++ [.patchAccessPoint ap.mac entries]
    match env.apPatchResponse.lanPortSettings.find? (fun p => decide (p.portName = portName)) with
    | none => (.error .stopIteration, t1)
    | some p => (.ok p, t1)

/-! ## Gateway operations -/

structure GatewayEnv where
  devices : List OmadaDevice
  gwResponse : OmadaGateway
  gwResponseAfter : OmadaGateway
deriving DecidableEq

/-- _get_gateway_mac: with no argument, list the devices and take the first
gateway (InvalidDevice when the site has none); a handle must carry the
"gateway" type tag; a mac string passes through unchecked. -/
def get_gateway_mac (env : GatewayEnv) (dev : Option MacOrDevice) :
    Except OmadaErr String × List Req :=
  match dev with
  | none =>
    match env.devices.find? (fun d => decide (d.type = "gateway")) with
    | none => (.error .invalidDevice, [.getDevices])
    | some d => (.ok d.mac, [.getDevices])
  | some (.device d) =>
    if d.type = "gateway" then (.ok d.mac, []) else (.error .invalidDevice, [])
  | some (.mac m) => (.ok m, [])

/-- Port lookup of get_gateway_port over a fetched gateway: `next(...)`
WITHOUT a default raises StopIteration for a missing port number; the
subsequent `if port_config is None: raise InvalidDevice(...)` guard is dead
code. -/
def gatewayPortLookup (gw : OmadaGateway) (portId : Nat) :
    Except OmadaErr OmadaGatewayPortConfig :=
  match (OmadaGateway.port_configs gw).find? (fun p => decide (p.port = portId)) with
  | none => .error .stopIteration
  | some p => .ok p

/-- The whole-device PoE PATCH payload of set_gateway_port_settings: one
entry per PoE-capable port (PoE mode not NONE), each carrying the port's
current enablement (mode = ENABLED), except the target port which carries the
caller's requested flag. -/
def gatewayPoePayload (gw : OmadaGateway) (portId : Nat) (req : Bool) :
    GatewayPoePayload :=
  { lldpEnable := gw.lldpEnable
    echoServer := gw.echoServer
    poeSettings :=
      ((OmadaGateway.port_configs gw).filter (fun p => decide (p.poe_mode ≠ PoEMode.NONE))).map
        (fun p =>
          { portId := p.port
            enable := if p.port = portId then req
              else decide (p.poe_mode = PoEMode.ENABLED) }) }

/-- Tail of set_gateway_port_settings (and body of get_gateway_port): a fresh
GET of the gateway followed by the port lookup. -/
def gatewayPortReadBack (env : GatewayEnv) (portId : Nat) (mac : String)
    (t : List Req) : Except OmadaErr OmadaGatewayPortConfig × List Req :=
  let t2 := t ++ [Req.getGateway mac]
  match gatewayPortLookup env.gwResponseAfter portId with
  | .error e => (.error e, t2)
  | .ok p => (.ok p, t2)

/-- set_gateway_port_settings: resolve the gateway mac; when an explicit PoE
flag is requested, GET the gateway, reject non-PoE gateways with
InvalidDevice, compose the whole-device PoE payload and PATCH it (the PATCH
response is discarded); in every case finish by re-fetching the gateway and
returning the named port's config from that fresh state. -/
def set_gateway_port_settings (env : GatewayEnv) (portId : Nat)
    (settings : GatewayPortSettings) (dev : Option MacOrDevice) :
    Except OmadaErr OmadaGatewayPortConfig × List Req :=
  match get_gateway_mac env dev with
  | (.error e, t) => (.error e, t)
  | (.ok mac, t0) =>
    match settings.enablePoe with
    | some req =>
      let gw := env.gwResponse
      let t1 := t0 ++ [Req.getGateway mac]
      if gw.supportPoe then
        let t2 := t1 ++ [Req.patchGatewayPoe mac (gatewayPoePayload gw portId req)]
        gatewayPortReadBack env portId mac t2
      else (.error .invalidDevice, t1)
    | none => gatewayPortReadBack env portId mac t0

/-! ## Concrete demo data used by closed theorems and witnesses -/

def demoPort : OmadaSwitchPortDetails :=
  { port := 4
    name := "Port 4"
    profileId := "prof-1"
    linkSpeed := .SPEED_AUTO
    duplex := .AUTO
    profileOverrideEnable := false
    tagIds := []
    nativeNetworkId := none
    networkTagsSetting := .UNKNOWN
    taggedNetworkIds := []
    untaggedNetworkIds := []
    hasVoiceNetwork := false
    voiceNetworkEnabled := false
    voiceNetworkId := ""
    poe := .NONE
    dot1x := .FORCE_AUTHORIZED
    lldpMedEnable := true
    loopbackDetectEnable := true
    spanningTreeEnable := false
    portIsolationEnable := false
    hasEee := false
    eeeEnabled := false
    hasFlowControl := false
    flowControlEnabled := false
    hasLoopbackDetectVlanBased := false
    loopbackDetectVlanBasedEnabled := false }

def demoProfile : OmadaPortProfile :=
  { profileId := "prof-1"
    poe := .ENABLED
    dot1x := .FORCE_AUTHORIZED
    lldpMedEnable := true
    loopbackDetectEnable := true
    spanningTreeEnable := false
    portIsolationEnable := false
    hasEee := false
    eeeEnabled := false
    hasFlowControl := false
    flowControlEnabled := false
    hasLoopbackDetectVlanBased := false
    loopbackDetectVlanBasedEnabled := false }

def demoSwitchEnv : SwitchEnv :=
  { controllerVersion := "5.9.9"
    portResponse := demoPort
    profiles := [demoProfile]
    patchResponse := demoPort
    portResponseAfter := { demoPort with name := "renamed" } }

def demoApPort (poeVal : Bool) : OmadaAccesPointLanPortSettings :=
  { portName := "ETH1"
    supportsVlan := true
    localVlanEnable := false
    localVlanId := 1
    supportsPoe := true
    poeEnable := poeVal }

/-- Scenario for the read-after-write check: the PATCH response reports the
stale PoE state (false) while a fresh GET after the PATCH would report the
new state (true). -/
def demoApEnv : ApEnv :=
  { apResponse := ⟨"AA-BB", [demoApPort false]⟩
    apPatchResponse := ⟨"AA-BB", [demoApPort false]⟩
    apResponseAfter := ⟨"AA-BB", [demoApPort true]⟩ }

def demoGateway : OmadaGateway :=
  { mac := "GG"
    supportPoe := true
    lldpEnable := true
    echoServer := some "0.0.0.0"
    portConfigs := [⟨1⟩, ⟨2⟩, ⟨3⟩]
    poeSettings := [⟨1, true⟩, ⟨3, false⟩] }

def demoGatewayEnv : GatewayEnv :=
  { devices := [⟨"gateway", "GG"⟩]
    gwResponse := demoGateway
    gwResponseAfter := demoGateway }

/-! ## Claims C6 and C7 -/

/-- Claim C6: PARTLY FALSIFIED by the code.  A profile id missing from the
site's profile list does fail with InvalidDevice (the lookup passes a default
to `next`), but a missing access-point port name and a missing gateway port
number raise StopIteration: `next` is called without a default there, and the
`if ... is None: raise InvalidDevice` guards behind those lookups are dead
code.  Evaluated on concrete data: an AP whose only port is "ETH1" queried
for "ETH2", a gateway with ports 1..3 queried for port 9, and a profile list
holding only "prof-1" queried for "absent". -/
theorem c6_missing_subresource_error_kinds :
    (get_access_point_port demoApEnv (.mac "AA-BB") "ETH2").1 = .error .stopIteration ∧
    gatewayPortLookup demoGateway 9 = .error .stopIteration ∧
    get_port_profile [demoProfile] "absent" = .error .invalidDevice ∧
    OmadaErr.stopIteration ≠ OmadaErr.invalidDevice := by
  refine ⟨by rfl, by rfl, by rfl, by decide⟩

/-- Claim C7: a per-device operation given an already-fetched device handle
with a mismatched type tag fails with InvalidDevice and issues zero
requests: the switch-port update and the access-point fetch/update for any
non-matching handle (e.g. an "ap" handle to the switch-port update), and the
gateway port-settings update for a non-gateway handle. -/
theorem c7_type_guard_before_network :
    (∀ d : OmadaDevice, d.type ≠ "switch" →
      ∀ (env : SwitchEnv) (portRef : Sum Nat OmadaSwitchPortDetails)
        (settings : SwitchPortSettings),
        update_switch_port env (.device d) portRef settings =
          (.error .invalidDevice, [])) ∧
    (∀ d : OmadaDevice, d.type ≠ "ap" →
      ∀ env : ApEnv,
        get_access_point env (.device d) = (.error .invalidDevice, [])) ∧
    (∀ d : OmadaDevice, d.type ≠ "ap" →
      ∀ (env : ApEnv) (portName : String) (setting : AccessPointPortSettings),
        update_access_point_port env (.device d) portName setting =
          (.error .invalidDevice, [])) ∧
    (∀ d : OmadaDevice, d.type ≠ "gateway" →
      ∀ (env : GatewayEnv) (portId : Nat) (settings : GatewayPortSettings),
        set_gateway_port_settings env portId settings (some (.device d)) =
          (.error .invalidDevice, [])) := by
  refine ⟨?_, ?_, ?_, ?_⟩
  · intro d h env portRef settings
    simp only [update_switch_port]
    rw [if_neg h]
  · intro d h env
    simp only [get_access_point]
    rw [if_neg h]
  · intro d h env portName setting
    simp only [update_access_point_port, get_access_point]
    rw [if_neg h]
  · intro d h env portId settings
    simp only [set_gateway_port_settings, get_gateway_mac]
    rw [if_neg h]

/-- Claim C7 witness: an "ap"-typed handle passed to the switch-port update
fails with InvalidDevice and an empty request trace. -/
theorem c7_type_guard_before_network_witness :
    (OmadaDevice.mk "ap" "AA-BB").type ≠ "switch" ∧
    update_switch_port demoSwitchEnv (.device ⟨"ap", "AA-BB"⟩) (.inl 4) {} =
      (.error .invalidDevice, []) := by
  have h : (OmadaDevice.mk "ap" "AA-BB").type ≠ "switch" := by decide
  exact ⟨h, c7_type_guard_before_network.1 ⟨"ap", "AA-BB"⟩ h demoSwitchEnv (.inl 4) {}⟩

/-! ## Claim C2: read-after-write -/

theorem updateSwitchPortAt_ok (env : SwitchEnv) (mac : String)
    (portRef : Sum Nat OmadaSwitchPortDetails) (settings : SwitchPortSettings)
    (r : OmadaSwitchPortDetails)
    (h : (updateSwitchPortAt env mac portRef settings).1 = .ok r) :
    r = env.portResponseAfter := by
  simp only [updateSwitchPortAt] at h
  split at h
  · split at h
    · simp at h
    · simp at h
      exact h.symm
  · simp at h
    exact h.symm

theorem gatewayPortReadBack_ok (env : GatewayEnv) (portId : Nat) (mac : String)
    (t : List Req) (r : OmadaGatewayPortConfig)
    (h : (gatewayPortReadBack env portId mac t).1 = .ok r) :
    gatewayPortLookup env.gwResponseAfter portId = .ok r := by
  simp only [gatewayPortReadBack] at h
  split at h
  · simp at h
  · next p heq =>
    simp at h
    rw [heq, h]

/-- Claim C2 counterexample: update_access_point_port returns the port taken
from the PATCH response body, not from a fresh GET.  In the demo scenario the
PATCH response still reports the stale PoE state (false) while a fresh GET
after the PATCH would report true; the returned object matches the PATCH
body, differs from the fresh state, and the request trace shows no GET after
the PATCH. -/
theorem c2_counterexample_ap_update_returns_patch_body :
    (update_access_point_port demoApEnv (.mac "AA-BB") "ETH1"
        { enablePoe := some true }).1 = .ok (demoApPort false) ∧
    demoApEnv.apResponseAfter.lanPortSettings.find?
        (fun p => decide (p.portName = "ETH1")) = some (demoApPort true) ∧
    demoApPort false ≠ demoApPort true ∧
    (update_access_point_port demoApEnv (.mac "AA-BB") "ETH1"
        { enablePoe := some true }).2 =
      [.getAccessPoint "AA-BB",
        .patchAccessPoint "AA-BB"
          [{ id := "ETH1", lanPort := "ETH1", localVlanEnable := false,
             localVlanId := 1, poeOutEnable := true }]] := by
  refine ⟨by rfl, by rfl, by decide, by rfl⟩

/-- Claim C2 (amended): update_switch_port and set_gateway_port_settings
return the entity state read back by a fresh GET issued after the PATCH —
whenever they return successfully, the returned object is exactly the
post-PATCH GET response (for the gateway, the port looked up in the
post-PATCH gateway state), and the result is unaffected by whatever body the
PATCH returned.  update_access_point_port, by contrast, builds its result
from the PATCH response body (see the counterexample). -/
theorem c2_read_after_write :
    (∀ (env : SwitchEnv) (dev : MacOrDevice)
        (portRef : Sum Nat OmadaSwitchPortDetails) (settings : SwitchPortSettings)
        (r : OmadaSwitchPortDetails),
      (update_switch_port env dev portRef settings).1 = .ok r →
        r = env.portResponseAfter) ∧
    (∀ (env : SwitchEnv) (pr : OmadaSwitchPortDetails) (dev : MacOrDevice)
        (portRef : Sum Nat OmadaSwitchPortDetails) (settings : SwitchPortSettings),
      update_switch_port { env with patchResponse := pr } dev portRef settings =
        update_switch_port env dev portRef settings) ∧
    (∀ (env : GatewayEnv) (portId : Nat) (settings : GatewayPortSettings)
        (dev : Option MacOrDevice) (r : OmadaGatewayPortConfig),
      (set_gateway_port_settings env portId settings dev).1 = .ok r →
        gatewayPortLookup env.gwResponseAfter portId = .ok r) := by
  refine ⟨?_, ?_, ?_⟩
  · intro env dev portRef settings r h
    cases dev with
    | mac m =>
      simp only [update_switch_port] at h
      exact updateSwitchPortAt_ok env m portRef settings r h
    | device d =>
      simp only [update_switch_port] at h
      split at h
      · exact updateSwitchPortAt_ok env d.mac portRef settings r h
      · simp at h
  · intro env pr dev portRef settings
    cases env
    rfl
  · intro env portId settings dev r h
    simp only [set_gateway_port_settings] at h
    split at h
    · simp at h
    · split at h
      · split at h
        · exact gatewayPortReadBack_ok env portId _ _ r h
        · simp at h
      · exact gatewayPortReadBack_ok env portId _ _ r h

/-- Claim C2 witness: a successful concrete switch-port update returns
exactly the post-PATCH GET state, and a successful concrete gateway update
returns the port of the post-PATCH gateway state. -/
theorem c2_read_after_write_witness :
    (update_switch_port demoSwitchEnv (.mac "SS") (.inl 4) {}).1 =
      .ok demoSwitchEnv.portResponseAfter ∧
    demoSwitchEnv.portResponseAfter = demoSwitchEnv.portResponseAfter ∧
    (set_gateway_port_settings demoGatewayEnv 1 { enablePoe := some false }
        (some (.mac "GG"))).1 =
      .ok { port := 1, poeEnabled := some true } ∧
    gatewayPortLookup demoGatewayEnv.gwResponseAfter 1 =
      .ok { port := 1, poeEnabled := some true } := by
  have h1 : (update_switch_port demoSwitchEnv (.mac "SS") (.inl 4) {}).1 =
      .ok demoSwitchEnv.portResponseAfter := by rfl
  have h3 : (set_gateway_port_settings demoGatewayEnv 1 { enablePoe := some false }
      (some (.mac "GG"))).1 = .ok { port := 1, poeEnabled := some true } := by rfl
  refine ⟨h1, c2_read_after_write.1 demoSwitchEnv (.mac "SS") (.inl 4) {} _ h1 ▸ rfl,
    h3, c2_read_after_write.2.2 demoGatewayEnv 1 { enablePoe := some false }
      (some (.mac "GG")) _ h3⟩

/-! ## Claim C5: whole-device gateway PoE payload -/

/-- Claim C5: when set_gateway_port_settings is called with an explicit PoE
flag, the composed PATCH payload's poeSettings array has exactly one entry
per PoE-capable port (PoE mode not NONE) of the gateway's port configs, each
carrying the port's current enablement (true exactly when its current PoE
mode is ENABLED) except the target port, which carries the caller's requested
flag; and the full operation issues exactly the gateway GET, this PATCH, and
the read-back GET. -/
theorem c5_gateway_poe_payload :
    (∀ (gw : OmadaGateway) (portId : Nat) (req : Bool),
      ((gatewayPoePayload gw portId req).poeSettings.length =
        ((OmadaGateway.port_configs gw).filter
          (fun p => decide (p.poe_mode ≠ PoEMode.NONE))).length) ∧
      (∀ e ∈ (gatewayPoePayload gw portId req).poeSettings,
        ∃ p ∈ OmadaGateway.port_configs gw, p.poe_mode ≠ PoEMode.NONE ∧
          e = ⟨p.port, if p.port = portId then req
            else decide (p.poe_mode = PoEMode.ENABLED)⟩) ∧
      (∀ p ∈ OmadaGateway.port_configs gw, p.poe_mode ≠ PoEMode.NONE →
        (PoeSettingEntry.mk p.port (if p.port = portId then req
          else decide (p.poe_mode = PoEMode.ENABLED))) ∈
            (gatewayPoePayload gw portId req).poeSettings)) ∧
    (∀ (env : GatewayEnv) (portId : Nat) (req : Bool) (m : String),
      env.gwResponse.supportPoe = true →
      (set_gateway_port_settings env portId { enablePoe := some req }
          (some (.mac m))).2 =
        [.getGateway m,
          .patchGatewayPoe m (gatewayPoePayload env.gwResponse portId req),
          .getGateway m]) := by
  constructor
  · intro gw portId req
    refine ⟨by simp [gatewayPoePayload], ?_, ?_⟩
    · intro e he
      simp only [gatewayPoePayload, List.mem_map] at he
      obtain ⟨p, hp, rfl⟩ := he
      rw [List.mem_filter] at hp
      exact ⟨p, hp.1, by simpa using hp.2, rfl⟩
    · intro p hp hne
      exact List.mem_map_of_mem _ (List.mem_filter.mpr ⟨hp, by simpa using hne⟩)
  · intro env portId req m h
    simp only [set_gateway_port_settings, get_gateway_mac, gatewayPortReadBack, h,
      if_true]
    split <;> simp

/-- Claim C5 witness: on the demo gateway (PoE-capable ports 1 and 3, port 2
without PoE), targeting port 3 with `enable_poe = true`, the payload carries
port 1's current state and the requested flag for port 3, and the full
request trace is GET, PATCH, GET. -/
theorem c5_gateway_poe_payload_witness :
    (OmadaGatewayPortConfig.mk 1 (some true)) ∈ OmadaGateway.port_configs demoGateway ∧
    (OmadaGatewayPortConfig.mk 1 (some true)).poe_mode ≠ PoEMode.NONE ∧
    (PoeSettingEntry.mk 1 (if (1 : Nat) = 3 then true
      else decide ((OmadaGatewayPortConfig.mk 1 (some true)).poe_mode = PoEMode.ENABLED))) ∈
        (gatewayPoePayload demoGateway 3 true).poeSettings ∧
    demoGatewayEnv.gwResponse.supportPoe = true ∧
    (set_gateway_port_settings demoGatewayEnv 3 { enablePoe := some true }
        (some (.mac "GG"))).2 =
      [.getGateway "GG",
        .patchGatewayPoe "GG" (gatewayPoePayload demoGatewayEnv.gwResponse 3 true),
        .getGateway "GG"] := by
  refine ⟨by decide, by decide, ?_, by rfl, ?_⟩
  · exact (c5_gateway_poe_payload.1 demoGateway 3 true).2.2 ⟨1, some true⟩
      (by decide) (by decide)
  · exact c5_gateway_poe_payload.2 demoGatewayEnv 3 true "GG" (by rfl)

/-! ## Claim C3: switch-port payload reconciliation -/

def c3Settings : SwitchPortSettings := { name := some "" }

/-- Claim C3 counterexample: an explicitly supplied empty-string name is NOT
copied into the payload.  `"name": settings.name or port.name` uses Python
`or`, so the falsy explicit value "" is replaced by the port's current name,
contradicting "every field equals the caller's explicitly supplied value when
one is given"; the PATCH actually issued carries the fallback name. -/
theorem c3_counterexample_empty_name_ignored :
    c3Settings.name = some "" ∧
    (buildSwitchPortBasePayload c3Settings demoPort).name = "Port 4" ∧
    ("Port 4" : String) ≠ "" ∧
    (update_switch_port demoSwitchEnv (.mac "SS") (.inr demoPort) c3Settings).2 =
      [.patchSwitchPort "SS" 4 (buildSwitchPortBasePayload c3Settings demoPort),
        .getSwitchPort "SS" 4] := by
  refine ⟨by rfl, by rfl, by decide, by rfl⟩

/-- Claim C3 (amended): every reconciled field of the switch-port PATCH
payload equals the caller's explicitly supplied value when one is given —
except that for the string fields (name, profile id, native network id) an
explicitly supplied empty string is treated as absent, Python-`or` style —
and otherwise the current effective value: for the plain port fields the
port's reported value; for the override block, the caller's explicit override
when given, else the value read back by get_switch_port_overrides, which
yields the port's own values when the port is overridden and the referenced
profile's values otherwise — with the PoE-enabled baseline of a
non-overridden port being true exactly when the profile's PoE mode is
anything other than disabled. -/
theorem c3_payload_reconciliation :
    (∀ (settings : SwitchPortSettings) (port : OmadaSwitchPortDetails),
      (∀ s, settings.name = some s → s ≠ "" →
        (buildSwitchPortBasePayload settings port).name = s) ∧
      (settings.name = none →
        (buildSwitchPortBasePayload settings port).name = port.name) ∧
      (∀ s, settings.profileId = some s → s ≠ "" →
        (buildSwitchPortBasePayload settings port).profileId = s) ∧
      (settings.profileId = none →
        (buildSwitchPortBasePayload settings port).profileId = port.profileId) ∧
      (∀ v, settings.linkSpeed = some v →
        (buildSwitchPortBasePayload settings port).linkSpeed = v) ∧
      (settings.linkSpeed = none →
        (buildSwitchPortBasePayload settings port).linkSpeed = port.linkSpeed) ∧
      (∀ v, settings.duplex = some v →
        (buildSwitchPortBasePayload settings port).duplex = v) ∧
      (settings.duplex = none →
        (buildSwitchPortBasePayload settings port).duplex = port.duplex) ∧
      (∀ b, settings.profileOverrideEnabled = some b →
        (buildSwitchPortBasePayload settings port).profileOverrideEnable = b) ∧
      (settings.profileOverrideEnabled = none →
        (buildSwitchPortBasePayload settings port).profileOverrideEnable =
          port.profileOverrideEnable) ∧
      (∀ l, settings.tagIds = some l →
        (buildSwitchPortBasePayload settings port).tagIds = l) ∧
      (settings.tagIds = none →
        (buildSwitchPortBasePayload settings port).tagIds = port.tagIds) ∧
      (∀ s, settings.nativeNetworkId = some s → s ≠ "" →
        (buildSwitchPortBasePayload settings port).nativeNetworkId = some s) ∧
      (∀ v, settings.networkTagsSetting = some v → v ≠ .UNKNOWN →
        (buildSwitchPortBasePayload settings port).networkTagsSetting = some v) ∧
      (settings.networkTagsSetting = none → port.networkTagsSetting ≠ .UNKNOWN →
        (buildSwitchPortBasePayload settings port).networkTagsSetting =
          some port.networkTagsSetting) ∧
      (port.hasVoiceNetwork = true → ∀ b, settings.voiceNetwork = some b →
        (buildSwitchPortBasePayload settings port).voiceNetworkEnable = some b) ∧
      (port.hasVoiceNetwork = true → settings.voiceNetwork = none →
        (buildSwitchPortBasePayload settings port).voiceNetworkEnable =
          some port.voiceNetworkEnabled)) ∧
    (∀ port : OmadaSwitchPortDetails,
      (overridesFromPort port).enablePoe = some (decide (port.poe = PoEMode.ENABLED))) ∧
    (∀ prof : OmadaPortProfile,
      (overridesFromProfile prof).enablePoe =
        some (decide (prof.poe ≠ PoEMode.DISABLED))) ∧
    (∀ (env : SwitchEnv) (mac : String) (portNum : Nat),
      env.portResponse.profileOverrideEnable = true →
        (get_switch_port_overrides env mac portNum).1 =
          .ok (overridesFromPort env.portResponse)) ∧
    (∀ (env : SwitchEnv) (mac : String) (portNum : Nat) (prof : OmadaPortProfile),
      env.portResponse.profileOverrideEnable = false →
      get_port_profile env.profiles env.portResponse.profileId = .ok prof →
        (get_switch_port_overrides env mac portNum).1 =
          .ok (overridesFromProfile prof)) ∧
    (∀ (base : SwitchPortPatchPayload) (newO existingO : PortProfileOverrides)
        (lt6 : Bool),
      (∀ b, newO.enablePoe = some b →
        (addOverridePayload base newO existingO lt6).poe =
          some (if b then PoEMode.ENABLED else PoEMode.DISABLED)) ∧
      (∀ b, newO.enablePoe = none → existingO.enablePoe = some b →
        (addOverridePayload base newO existingO lt6).poe =
          some (if b then PoEMode.ENABLED else PoEMode.DISABLED)) ∧
      (∀ v, newO.dot1xMode = some v →
        (addOverridePayload base newO existingO lt6).dot1x = some v) ∧
      (newO.dot1xMode = none →
        (addOverridePayload base newO existingO lt6).dot1x = existingO.dot1xMode) ∧
      (∀ b, newO.lldpMedEnable = some b →
        (addOverridePayload base newO existingO lt6).lldpMedEnable = some b) ∧
      (newO.lldpMedEnable = none →
        (addOverridePayload base newO existingO lt6).lldpMedEnable =
          existingO.lldpMedEnable) ∧
      (∀ b, newO.loopbackDetect = some b →
        (addOverridePayload base newO existingO lt6).loopbackDetectEnable = some b) ∧
      (newO.loopbackDetect = none →
        (addOverridePayload base newO existingO lt6).loopbackDetectEnable =
          existingO.loopbackDetect) ∧
      (∀ b, newO.spanningTreeEnable = some b →
        (addOverridePayload base newO existingO lt6).spanningTreeEnable = some b) ∧
      (newO.spanningTreeEnable = none →
        (addOverridePayload base newO existingO lt6).spanningTreeEnable =
          existingO.spanningTreeEnable) ∧
      (∀ b, newO.portIsolation = some b →
        (addOverridePayload base newO existingO lt6).portIsolationEnable = some b) ∧
      (newO.portIsolation = none →
        (addOverridePayload base newO existingO lt6).portIsolationEnable =
          existingO.portIsolation) ∧
      (lt6 = true →
        (addOverridePayload base newO existingO lt6).topoNotifyEnable = some false) ∧
      (lt6 = false →
        (∀ b, newO.eee = some b →
          (addOverridePayload base newO existingO lt6).eeeEnable = some b) ∧
        (newO.eee = none →
          (addOverridePayload base newO existingO lt6).eeeEnable = existingO.eee) ∧
        (∀ b, newO.flowControl = some b →
          (addOverridePayload base newO existingO lt6).flowControlEnable = some b) ∧
        (newO.flowControl = none →
          (addOverridePayload base newO existingO lt6).flowControlEnable =
            existingO.flowControl) ∧
        (∀ b, newO.loopbackDetectVlanBased = some b →
          (addOverridePayload base newO existingO lt6).loopbackDetectVlanBasedEnable =
            some b) ∧
        (newO.loopbackDetectVlanBased = none →
          (addOverridePayload base newO existingO lt6).loopbackDetectVlanBasedEnable =
            existingO.loopbackDetectVlanBased))) := by
  refine ⟨?_, fun port => rfl, fun prof => rfl, ?_, ?_, ?_⟩
  · intro settings port
    refine ⟨?_, ?_, ?_, ?_, ?_, ?_, ?_, ?_, ?_, ?_, ?_, ?_, ?_, ?_, ?_, ?_, ?_⟩
    · intro s hs hne
      simp [buildSwitchPortBasePayload, pyOrStr, optStrTruthy, hs, hne]
    · intro hs
      simp [buildSwitchPortBasePayload, pyOrStr, optStrTruthy, hs]
    · intro s hs hne
      simp [buildSwitchPortBasePayload, pyOrStr, optStrTruthy, hs, hne]
    · intro hs
      simp [buildSwitchPortBasePayload, pyOrStr, optStrTruthy, hs]
    · intro v hv
      simp [buildSwitchPortBasePayload, hv]
    · intro hv
      simp [buildSwitchPortBasePayload, hv]
    · intro v hv
      simp [buildSwitchPortBasePayload, hv]
    · intro hv
      simp [buildSwitchPortBasePayload, hv]
    · intro b hb
      simp [buildSwitchPortBasePayload, hb]
    · intro hb
      simp [buildSwitchPortBasePayload, hb]
    · intro l hl
      simp [buildSwitchPortBasePayload, hl]
    · intro hl
      simp [buildSwitchPortBasePayload, hl]
    · intro s hs hne
      simp [buildSwitchPortBasePayload, pyOrOptStr, optStrTruthy, hs, hne]
    · intro v hv hne
      simp [buildSwitchPortBasePayload, hv, hne]
    · intro hv hne
      simp [buildSwitchPortBasePayload, hv, hne]
    · intro hvoice b hb
      simp [buildSwitchPortBasePayload, hvoice, hb]
    · intro hvoice hb
      simp [buildSwitchPortBasePayload, hvoice, hb]
  · intro env mac portNum h
    simp [get_switch_port_overrides, h]
  · intro env mac portNum prof h hp
    simp [get_switch_port_overrides, h, hp]
  · intro base newO existingO lt6
    refine ⟨?_, ?_, ?_, ?_, ?_, ?_, ?_, ?_, ?_, ?_, ?_, ?_, ?_, ?_⟩
    · intro b hb
      cases b <;> cases lt6 <;>
        simp [addOverridePayload, mergeOpt, optBoolTruthy, hb]
    · intro b hn hb
      cases b <;> cases lt6 <;>
        simp [addOverridePayload, mergeOpt, optBoolTruthy, hn, hb]
    · intro v hv
      cases lt6 <;> simp [addOverridePayload, mergeOpt, hv]
    · intro hv
      cases lt6 <;> simp [addOverridePayload, mergeOpt, hv]
    · intro b hb
      cases lt6 <;> simp [addOverridePayload, mergeOpt, hb]
    · intro hb
      cases lt6 <;> simp [addOverridePayload, mergeOpt, hb]
    · intro b hb
      cases lt6 <;> simp [addOverridePayload, mergeOpt, hb]
    · intro hb
      cases lt6 <;> simp [addOverridePayload, mergeOpt, hb]
    · intro b hb
      cases lt6 <;> simp [addOverridePayload, mergeOpt, hb]
    · intro hb
      cases lt6 <;> simp [addOverridePayload, mergeOpt, hb]
    · intro b hb
      cases lt6 <;> simp [addOverridePayload, mergeOpt, hb]
    · intro hb
      cases lt6 <;> simp [addOverridePayload, mergeOpt, hb]
    · intro h6
      subst h6
      simp [addOverridePayload]
    · intro h6
      subst h6
      refine ⟨?_, ?_, ?_, ?_, ?_, ?_⟩ <;>
        first
        | (intro b hb; simp [addOverridePayload, mergeOpt, hb])
        | (intro hb; simp [addOverridePayload, mergeOpt, hb])

/-- Claim C3 witness: a supplied non-empty name lands in the payload
verbatim, and the demo profile (PoE mode enabled, i.e. not disabled) yields
an effective PoE-enabled baseline of true. -/
theorem c3_payload_reconciliation_witness :
    (SwitchPortSettings.name { name := some "NewName" } = some "NewName") ∧
    ("NewName" : String) ≠ "" ∧
    (buildSwitchPortBasePayload { name := some "NewName" } demoPort).name =
      "NewName" ∧
    demoProfile.poe ≠ PoEMode.DISABLED ∧
    (overridesFromProfile demoProfile).enablePoe = some true := by
  refine ⟨rfl, by decide, ?_, by decide, ?_⟩
  · exact (c3_payload_reconciliation.1 { name := some "NewName" } demoPort).1
      "NewName" rfl (by decide)
  · exact (c3_payload_reconciliation.2.2.1 demoProfile).trans (by decide)
